import Mathlib

/-!
# gstnetfilter: a network packet filter element

A shallow embedding of `gstnetfilter.c` / `gstnetfilter.h`: the element state
(`GstNetfilter`), its constructor (`gst_netfilter_init`), the per-packet chain
function (`gst_netfilter_chain`) and the property setter
(`gst_netfilter_set_property`), followed by theorems about them.

Conventions of the embedding:
* `guint8` and `guint16` values are natural numbers; the code performs no
  arithmetic on them, it only copies and compares them.
* the address union of `GstNetAddress` is its 16 bytes of storage; the `ip4`
  member is the first four of them (a `guint32` is determined by its four bytes
  in memory, and conversely).
* calls into the pipeline (`gst_pad_push`, `gst_buffer_unref`) and into the log
  are recorded in the result of the function that issues them.
* a call whose behaviour is undefined (a library function used outside its domain) has
  the result `none`.
* the object lock taken by the property setter is not modelled.
-/

namespace Netfilter

/-! ## The network address library used by the element -/

/-- The address families of a `GstNetAddress`; `GST_NET_TYPE_UNKNOWN` is the value 0. -/
inductive GstNetType where
  | GST_NET_TYPE_UNKNOWN
  | GST_NET_TYPE_IP4
  | GST_NET_TYPE_IP6
  deriving DecidableEq, Repr

open GstNetType

/-- Sixteen bytes of storage, as in `guint8 addr[16]`. -/
abbrev Bytes16 := Fin 16 → Nat

/-- Four bytes of storage: a `guint32` such as `s_addr`, seen as its bytes in memory. -/
abbrev Bytes4 := Fin 4 → Nat

/-- The bytes of a list, padded with zeroes, as sixteen bytes of storage. -/
def Bytes16.ofList (l : List Nat) : Bytes16 := fun i => l.getD i.val 0

/-- The bytes of a list, padded with zeroes, as four bytes of storage. -/
def Bytes4.ofList (l : List Nat) : Bytes4 := fun i => l.getD i.val 0

/-- The first `n` bytes of two stores agree (what `memcmp` over `n` bytes tests). -/
def bytes_agree (n : Nat) (a b : Bytes16) : Prop := ∀ i : Fin 16, i.val < n → a i = b i

instance (n : Nat) (a b : Bytes16) : Decidable (bytes_agree n a b) := by
  unfold bytes_agree; exact inferInstance

/-- A network address: family, the 16 bytes of the address union, port. -/
structure GstNetAddress where
  type : GstNetType
  address : Bytes16
  port : Nat

/-- Modelled from the spec: the netbuffer library function `gst_netaddress_set_ip4_address`
is not under src/; it stores family IPv4, the four address bytes and the port. The union
bytes beyond the `ip4` member keep their previous content. -/
def gst_netaddress_set_ip4_address (naddr : GstNetAddress) (address : Bytes4) (port : Nat) :
    GstNetAddress :=
  { type := GST_NET_TYPE_IP4
    address := fun i => if h : i.val < 4 then address ⟨i.val, h⟩ else naddr.address i
    port := port }

/-- Modelled from the spec: the netbuffer library function `gst_netaddress_set_ip6_address`
is not under src/; it stores family IPv6, the sixteen address bytes and the port. -/
def gst_netaddress_set_ip6_address (_naddr : GstNetAddress) (address : Bytes16) (port : Nat) :
    GstNetAddress :=
  { type := GST_NET_TYPE_IP6
    address := address
    port := port }

/-- Modelled from the spec: the netbuffer library function `gst_netaddress_get_net_type`
is not under src/; it reads the family of an address. -/
def gst_netaddress_get_net_type (naddr : GstNetAddress) : GstNetType := naddr.type

/-- Modelled from the spec: the netbuffer library function `gst_netaddress_get_address_bytes`
is not under src/; it copies the raw bytes of the address (4 for IPv4, 16 otherwise) into the
caller's buffer `address`, whose remaining bytes keep their content, and reads the port.
The result is the number of bytes copied, the buffer and the port. -/
def gst_netaddress_get_address_bytes (naddr : GstNetAddress) (address : Bytes16) :
    Nat × Bytes16 × Nat :=
  match naddr.type with
  | GST_NET_TYPE_IP4 =>
    (4, fun i => if i.val < 4 then naddr.address i else address i, naddr.port)
  | _ => (16, naddr.address, naddr.port)

/-- Modelled from the spec: the netbuffer library function `gst_netaddress_set_address_bytes`
is not under src/; it stores the family, copies the raw bytes (4 for IPv4, 16 otherwise)
from `address` into the union, and stores the port. -/
def gst_netaddress_set_address_bytes (naddr : GstNetAddress) (type : GstNetType)
    (address : Bytes16) (port : Nat) : GstNetAddress :=
  match type with
  | GST_NET_TYPE_IP4 =>
    { type := type
      address := fun i => if i.val < 4 then address i else naddr.address i
      port := port }
  | _ =>
    { type := type
      address := address
      port := port }

/-- Modelled from the spec: the netbuffer library function `gst_netaddress_equal` is not
under src/; two addresses are equal iff family, port and raw bytes (4 for IPv4, 16 for IPv6)
are equal. Two addresses of unknown family with the same port are outside its domain (the
library asserts that this is not reached): the result is `none` there. -/
def gst_netaddress_equal (naddr1 naddr2 : GstNetAddress) : Option Bool :=
  if naddr1.type ≠ naddr2.type then some false
  else if naddr1.port ≠ naddr2.port then some false
  else
    match naddr1.type with
    | GST_NET_TYPE_IP4 => some (decide (bytes_agree 4 naddr1.address naddr2.address))
    | GST_NET_TYPE_IP6 => some (decide (bytes_agree 16 naddr1.address naddr2.address))
    | GST_NET_TYPE_UNKNOWN => none

/-! ## Constants -/

/-- The port every compared address is given: `DUMMY_PORT = 0x0100`. -/
def DUMMY_PORT : Nat := 0x0100

/-- Property id 0 is not used. -/
def PROP_0 : Nat := 0

/-- Property id of "filter-address". -/
def PROP_FILTER_ADDRESS : Nat := 1

/-- Property id of "enabled". -/
def PROP_ENABLED : Nat := 2

/-- The value of `AF_INET` in the socket headers. -/
def AF_INET : Int := 2

/-- The value of `AF_INET6` in the socket headers. -/
def AF_INET6 : Int := 10

/-- Flow return codes are integers; negative ones are failures. -/
abbrev GstFlowReturn := Int

/-- The success status. -/
def GST_FLOW_OK : GstFlowReturn := 0

/-! ## Buffers, log, element state -/

/-- A buffer: a plain `GstBuffer`, or a `GstNetBuffer` carrying `from` and `to` addresses. -/
inductive GstBuffer where
  | buffer (data : List Nat)
  | netbuffer (data : List Nat) (from_ : GstNetAddress) (to_ : GstNetAddress)

/-- The payload of a buffer. -/
def GstBuffer.data : GstBuffer → List Nat
  | .buffer d => d
  | .netbuffer d _ _ => d

/-- The run-time type test `GST_IS_NETBUFFER`. -/
def GST_IS_NETBUFFER : GstBuffer → Bool
  | .buffer _ => false
  | .netbuffer _ _ _ => true

/-- The cast `GST_NETBUFFER`: the `from` and `to` addresses of a netbuffer. -/
def GST_NETBUFFER : GstBuffer → Option (GstNetAddress × GstNetAddress)
  | .buffer _ => none
  | .netbuffer _ f t => some (f, t)

/-- Severity of a log call. -/
inductive GstDebugLevel where
  | GST_LEVEL_ERROR
  | GST_LEVEL_WARNING
  | GST_LEVEL_DEBUG
  deriving DecidableEq, Repr

/-- One call to the log: severity and format string. -/
structure LogEntry where
  level : GstDebugLevel
  format : String
  deriving DecidableEq, Repr

/-- The fields of `struct _GstNetfilter` that the element logic reads and writes. -/
structure GstNetfilter where
  filtering_enabled : Bool
  filter_address : GstNetAddress

/-- Modelled from the spec: the instance memory handed to `gst_netfilter_init` is allocated
by the object system, which is not under src/; it is zero-filled, so `filter_address` is the
unset/zero value (family 0, all bytes 0, port 0). -/
def zeroed_instance : GstNetfilter :=
  { filtering_enabled := false
    filter_address := { type := GST_NET_TYPE_UNKNOWN, address := fun _ => 0, port := 0 } }

/-- The constructor `gst_netfilter_init`: enables filtering; `filter_address` is not written. -/
def gst_netfilter_init (netfilter : GstNetfilter) : GstNetfilter :=
  { netfilter with filtering_enabled := true }

/-! ## The chain function -/

/-- The automatic variables of the address block of `gst_netfilter_chain` that are read
before the element code has written all of them; their initial content is arbitrary. -/
structure ChainLocals where
  addr : Bytes16
  modified_source_address : GstNetAddress

/-- What one call of `gst_netfilter_chain` does: the returned status, the buffers handed to
`gst_pad_push` and to `gst_buffer_unref` (in call order), and the log calls. -/
structure ChainResult where
  ret : GstFlowReturn
  pushed : List GstBuffer
  unreffed : List GstBuffer
  log : List LogEntry

/-- The address block of `gst_netfilter_chain` (lines 193-201): read type and bytes of the
origin address, build `modified_source_address` of that type from those bytes with port
`DUMMY_PORT`. -/
def modified_source_address (locals : ChainLocals) (orig_packet_source_address : GstNetAddress) :
    GstNetAddress :=
  let type := gst_netaddress_get_net_type orig_packet_source_address
  let addr := (gst_netaddress_get_address_bytes orig_packet_source_address locals.addr).2.1
  gst_netaddress_set_address_bytes locals.modified_source_address type addr DUMMY_PORT

/-- The chain function `gst_netfilter_chain`. `gst_pad_push` is the downstream of the source
pad; `debug` is the outcome of the threshold test guarding the first debug message. The result
is `none` when `gst_netaddress_equal` is called outside its domain. -/
def gst_netfilter_chain (netfilter : GstNetfilter) (gst_pad_push : GstBuffer → GstFlowReturn)
    (debug : Bool) (locals : ChainLocals) (packet : GstBuffer) : Option ChainResult :=
  match netfilter.filtering_enabled, GST_NETBUFFER packet with
  | true, some (from_, _) =>
    let modified := modified_source_address locals from_
    let log0 : List LogEntry :=
      if debug then
        [⟨.GST_LEVEL_DEBUG, "Received buffer is a network packet with source address %s (filter address is %s; port numbers are ignored)"⟩]
      else []
    match gst_netaddress_equal netfilter.filter_address modified with
    | none => none
    | some true =>
      some
        { ret := gst_pad_push packet
          pushed := [packet]
          unreffed := []
          log := log0 ++ [⟨.GST_LEVEL_DEBUG, "Received packet's source address is a match -> passing through"⟩] }
    | some false =>
      some
        { ret := GST_FLOW_OK
          pushed := []
          unreffed := [packet]
          log := log0 ++ [⟨.GST_LEVEL_DEBUG, "Received packet's source address does not match the filter address -> dropping"⟩] }
  | _, _ =>
    some
      { ret := gst_pad_push packet
        pushed := [packet]
        unreffed := []
        log := [] }

/-! ## The property setter -/

/-- The first entry of a `getaddrinfo` result list: the family, and the content of `ai_addr`
read as `struct sockaddr_in` (`sin_addr.s_addr`) and as `struct sockaddr_in6`
(`sin6_addr.s6_addr`). -/
structure addrinfo where
  ai_family : Int
  sin_addr : Bytes4
  sin6_addr : Bytes16

/-- A property value: a string (possibly NULL) or a boolean. -/
inductive GValue where
  | string (s : Option String)
  | boolean (b : Bool)

/-- The accessor `g_value_get_string`: NULL when the value holds no string. -/
def g_value_get_string : GValue → Option String
  | .string s => s
  | .boolean _ => none

/-- The accessor `g_value_get_boolean`: FALSE when the value holds no boolean. -/
def g_value_get_boolean : GValue → Bool
  | .string _ => false
  | .boolean b => b

/-- The libc function `freeaddrinfo`, applied to the local `result` of the setter. `result` is
`some` list once a successful `getaddrinfo` has written it and `none` while it has never been
written. Releasing a list returned by `getaddrinfo` is defined; on the never-written pointer
the behaviour is undefined, which is the result `none`. -/
def freeaddrinfo (result : Option addrinfo) : Option Unit :=
  match result with
  | some _ => some ()
  | none => none

/-- The property setter `gst_netfilter_set_property`. `getaddrinfo` is the resolver: for a
node string it gives the error code and the first result; it writes the local `result` (declared
without initialiser) only when the code is 0. After the branches on the error code and on the
family, `freeaddrinfo (result)` is called on every path of the "filter-address" case. The result
is the new element state and the log calls, or `none` when the behaviour is undefined. -/
def gst_netfilter_set_property (getaddrinfo : Option String → Int × addrinfo)
    (netfilter : GstNetfilter) (prop_id : Nat) (value : GValue) :
    Option (GstNetfilter × List LogEntry) :=
  if prop_id = PROP_FILTER_ADDRESS then
    let address_str := g_value_get_string value
    let error := (getaddrinfo address_str).1
    let result : Option addrinfo :=
      if error ≠ 0 then none else some (getaddrinfo address_str).2
    let after : GstNetfilter × List LogEntry :=
      if error ≠ 0 then
        (netfilter, [⟨.GST_LEVEL_ERROR, "Could not set filter address property: %s"⟩])
      else if (getaddrinfo address_str).2.ai_family = AF_INET then
        ({ netfilter with
            filter_address :=
              gst_netaddress_set_ip4_address netfilter.filter_address
                (getaddrinfo address_str).2.sin_addr DUMMY_PORT },
          [])
      else if (getaddrinfo address_str).2.ai_family = AF_INET6 then
        ({ netfilter with
            filter_address :=
              gst_netaddress_set_ip6_address netfilter.filter_address
                (getaddrinfo address_str).2.sin6_addr DUMMY_PORT },
          [])
      else
        (netfilter,
          [⟨.GST_LEVEL_ERROR, "Could not set filter address property: unknown address family %d"⟩])
    match freeaddrinfo result with
    | none => none
    | some _ => some after
  else if prop_id = PROP_ENABLED then
    some ({ netfilter with filtering_enabled := g_value_get_boolean value },
      [⟨.GST_LEVEL_DEBUG, "Filtering is %s"⟩])
  else
    some (netfilter, [⟨.GST_LEVEL_WARNING, "invalid property id"⟩])

/-! ## Reachable states -/

/-- One call made on the element after construction. -/
inductive Event where
  | set_property (getaddrinfo : Option String → Int × addrinfo) (prop_id : Nat) (value : GValue)
  | chain (gst_pad_push : GstBuffer → GstFlowReturn) (debug : Bool) (locals : ChainLocals)
      (packet : GstBuffer)

/-- The element state after one call, when the call returns; the chain function writes no field
of the element. -/
def step (netfilter : GstNetfilter) : Event → Option GstNetfilter
  | .set_property getaddrinfo prop_id value =>
    (gst_netfilter_set_property getaddrinfo netfilter prop_id value).map Prod.fst
  | .chain gst_pad_push debug locals packet =>
    (gst_netfilter_chain netfilter gst_pad_push debug locals packet).map (fun _ => netfilter)

/-- The element state after a sequence of calls made from the given state, when all return. -/
def run_from (netfilter : GstNetfilter) : List Event → Option GstNetfilter
  | [] => some netfilter
  | e :: es =>
    match step netfilter e with
    | none => none
    | some next => run_from next es

/-- The element state after construction followed by a sequence of calls. -/
def run (events : List Event) : Option GstNetfilter :=
  run_from (gst_netfilter_init zeroed_instance) events

/-! ## Concrete data of the scenarios -/

/-- An IPv4 origin address with the given four bytes and port. -/
def ip4 (b : List Nat) (port : Nat) : GstNetAddress :=
  { type := GST_NET_TYPE_IP4, address := Bytes16.ofList b, port := port }

/-- A resolver that always succeeds with the given IPv4 address. -/
def resolves_ip4 (b : List Nat) : Option String → Int × addrinfo :=
  fun _ => (0, { ai_family := AF_INET, sin_addr := Bytes4.ofList b, sin6_addr := fun _ => 0 })

/-- A resolver that always fails with the given error code. -/
def resolver_fails (error : Int) : Option String → Int × addrinfo :=
  fun _ => (error, { ai_family := 0, sin_addr := fun _ => 0, sin6_addr := fun _ => 0 })

/-- Some content of the automatic variables. -/
def locals0 : ChainLocals :=
  { addr := fun _ => 0
    modified_source_address := { type := GST_NET_TYPE_UNKNOWN, address := fun _ => 0, port := 0 } }

/-- A downstream that accepts every buffer. -/
def push_ok : GstBuffer → GstFlowReturn := fun _ => GST_FLOW_OK

/-- A resolver that always succeeds with a result of the given family, neither IPv4 nor
IPv6 when the family is neither `AF_INET` nor `AF_INET6`. -/
def resolves_family (family : Int) : Option String → Int × addrinfo :=
  fun _ => (0, { ai_family := family, sin_addr := fun _ => 0, sin6_addr := fun _ => 0 })

/-- The element filtering on 192.0.2.1: filtering enabled, and the filter address written by
`gst_netaddress_set_ip4_address` over the all-zero address of construction. -/
def scenario_filter : GstNetfilter :=
  { filtering_enabled := true
    filter_address :=
      gst_netaddress_set_ip4_address zeroed_instance.filter_address
        (Bytes4.ofList [192, 0, 2, 1]) DUMMY_PORT }

/-- The element of `scenario_filter` with filtering disabled. -/
def scenario_disabled : GstNetfilter :=
  { scenario_filter with filtering_enabled := false }

/-- A netbuffer with the given payload and IPv4 origin. -/
def packet_from (data : List Nat) (b : List Nat) (port : Nat) : GstBuffer :=
  .netbuffer data (ip4 b port) (ip4 [] 0)

/-- A sequence of calls: "filter-address" is set to 192.0.2.1, a set of "filter-address" is
rejected for its family, "enabled" is set to false, a packet from 192.0.2.1:5000 is processed. -/
def scenario_calls : List Event :=
  [.set_property (resolves_ip4 [192, 0, 2, 1]) PROP_FILTER_ADDRESS (.string (some "192.0.2.1")),
   .set_property (resolves_family 1) PROP_FILTER_ADDRESS (.string (some "x.invalid")),
   .set_property (resolves_family 1) PROP_ENABLED (.boolean false),
   .chain push_ok false locals0 (packet_from [7] [192, 0, 2, 1] 5000)]

/-! ## Predicates used in the statements -/

/-- The number of raw address bytes of a family: 4 for IPv4, 16 otherwise. -/
def raw_len : GstNetType → Nat
  | GST_NET_TYPE_IP4 => 4
  | _ => 16

/-- Two addresses have the same family and the same raw bytes (ports are not looked at). -/
def same_host (a b : GstNetAddress) : Prop :=
  a.type = b.type ∧ bytes_agree (raw_len b.type) a.address b.address

instance (a b : GstNetAddress) : Decidable (same_host a b) := by
  unfold same_host; exact inferInstance

/-- The address has the family and the raw bytes of a resolver result: IPv4 with the four
bytes of `sin_addr`, or IPv6 with the sixteen bytes of `sin6_addr`. -/
def resolved_host (result : addrinfo) (a : GstNetAddress) : Prop :=
  (result.ai_family = AF_INET ∧ a.type = GST_NET_TYPE_IP4 ∧
      ∀ i : Fin 4, a.address (Fin.castLE (by decide) i) = result.sin_addr i) ∨
  (result.ai_family = AF_INET6 ∧ a.type = GST_NET_TYPE_IP6 ∧ a.address = result.sin6_addr)

/-- The call is a set of "filter-address" whose lookup fails: the resolver returns an error. -/
def Event.lookup_fails : Event → Bool
  | .set_property getaddrinfo prop_id value =>
    decide (prop_id = PROP_FILTER_ADDRESS ∧ (getaddrinfo (g_value_get_string value)).1 ≠ 0)
  | .chain _ _ _ _ => false

/-- The call is a set of "filter-address" that succeeds: the resolver returns no error and a
first result of family `AF_INET` or `AF_INET6`. -/
def Event.sets_address : Event → Bool
  | .set_property getaddrinfo prop_id value =>
    decide (prop_id = PROP_FILTER_ADDRESS ∧ (getaddrinfo (g_value_get_string value)).1 = 0 ∧
      ((getaddrinfo (g_value_get_string value)).2.ai_family = AF_INET ∨
        (getaddrinfo (g_value_get_string value)).2.ai_family = AF_INET6))
  | .chain _ _ _ _ => false

/-- The packet was handed downstream exactly once, nothing was released, and the status is the
one the downstream returned. -/
def forwarded (gst_pad_push : GstBuffer → GstFlowReturn) (packet : GstBuffer)
    (r : ChainResult) : Prop :=
  r.ret = gst_pad_push packet ∧ r.pushed = [packet] ∧ r.unreffed = []

/-- The packet was released, nothing was handed downstream, and the status is success. -/
def dropped (packet : GstBuffer) (r : ChainResult) : Prop :=
  r.ret = GST_FLOW_OK ∧ r.pushed = [] ∧ r.unreffed = [packet]

/-- The state of the filter address in terms of the calls made so far: `set` tells whether a
set of "filter-address" has succeeded. -/
def address_state (set : Bool) (netfilter : GstNetfilter) : Prop :=
  (set = false ∧ netfilter.filter_address = zeroed_instance.filter_address) ∨
  (set = true ∧ netfilter.filter_address.port = DUMMY_PORT ∧
    netfilter.filter_address.type ≠ GST_NET_TYPE_UNKNOWN)

/-! ## Lemmas on the address library and the address block -/

theorem bytes_agree_refl (n : Nat) (a : Bytes16) : bytes_agree n a a := fun _ _ => rfl

theorem bytes_agree_sixteen (a b : Bytes16) : bytes_agree 16 a b ↔ a = b := by
  constructor
  · intro h
    funext i
    exact h i i.isLt
  · intro h
    subst h
    exact bytes_agree_refl 16 a

theorem modified_type (l : ChainLocals) (a : GstNetAddress) :
    (modified_source_address l a).type = a.type := by
  unfold modified_source_address gst_netaddress_set_address_bytes gst_netaddress_get_net_type
  cases h : a.type <;> simp

theorem modified_port (l : ChainLocals) (a : GstNetAddress) :
    (modified_source_address l a).port = DUMMY_PORT := by
  unfold modified_source_address gst_netaddress_set_address_bytes gst_netaddress_get_net_type
  cases h : a.type <;> simp

theorem modified_bytes (l : ChainLocals) (a : GstNetAddress) :
    bytes_agree (raw_len a.type) (modified_source_address l a).address a.address := by
  unfold modified_source_address gst_netaddress_set_address_bytes gst_netaddress_get_net_type
    gst_netaddress_get_address_bytes
  cases h : a.type
  · simp [raw_len, bytes_agree_refl]
  · intro i hi
    simp only [raw_len] at hi
    simp [hi]
  · simp [raw_len, bytes_agree_refl]

theorem bytes_agree_trans_right (n : Nat) (a b c : Bytes16) (h : bytes_agree n b c) :
    bytes_agree n a b ↔ bytes_agree n a c := by
  constructor
  · intro hab i hi
    rw [hab i hi, h i hi]
  · intro hac i hi
    rw [hac i hi, h i hi]

/-- When one of the two addresses has a known family, `gst_netaddress_equal` is defined and
tests family, port and raw bytes. -/
theorem equal_known (f b : GstNetAddress)
    (hb : b.type ≠ GST_NET_TYPE_UNKNOWN ∨ f.type ≠ GST_NET_TYPE_UNKNOWN) :
    gst_netaddress_equal f b = some (decide (same_host f b ∧ f.port = b.port)) := by
  obtain ⟨ft, fa, fp⟩ := f
  obtain ⟨bt, ba, bp⟩ := b
  simp only [ne_eq] at hb
  unfold gst_netaddress_equal same_host
  by_cases hp : fp = bp
  · cases ft <;> cases bt <;> simp_all [raw_len]
  · cases ft <;> cases bt <;> simp_all [raw_len]

/-- The comparison made by the chain function: the filter address against the rebuilt origin
address, when one of the two has a known family. -/
theorem equal_modified (f a : GstNetAddress) (l : ChainLocals)
    (ha : a.type ≠ GST_NET_TYPE_UNKNOWN ∨ f.type ≠ GST_NET_TYPE_UNKNOWN) :
    gst_netaddress_equal f (modified_source_address l a)
      = some (decide (same_host f a ∧ f.port = DUMMY_PORT)) := by
  rw [equal_known f _ (by rw [modified_type]; exact ha)]
  congr 1
  apply decide_eq_decide.mpr
  unfold same_host
  rw [modified_type, modified_port,
    bytes_agree_trans_right _ f.address _ a.address (modified_bytes l a)]

/-! ## Lemmas on the chain function -/

/-- With filtering enabled, a netbuffer is forwarded when the filter address has the
family and raw bytes of the origin and port `DUMMY_PORT`, and dropped otherwise, provided the
origin or the filter address has a known family. -/
theorem chain_enabled_netbuffer (fa : GstNetAddress) (gst_pad_push : GstBuffer → GstFlowReturn)
    (debug : Bool) (l : ChainLocals) (d : List Nat) (a t : GstNetAddress)
    (ha : a.type ≠ GST_NET_TYPE_UNKNOWN ∨ fa.type ≠ GST_NET_TYPE_UNKNOWN) :
    ∃ r, gst_netfilter_chain ⟨true, fa⟩ gst_pad_push debug l (.netbuffer d a t) = some r ∧
      ((same_host fa a ∧ fa.port = DUMMY_PORT) → forwarded gst_pad_push (.netbuffer d a t) r) ∧
      (¬ (same_host fa a ∧ fa.port = DUMMY_PORT) → dropped (.netbuffer d a t) r) := by
  unfold gst_netfilter_chain
  simp only [GST_NETBUFFER]
  rw [equal_modified fa a l ha]
  by_cases h : same_host fa a ∧ fa.port = DUMMY_PORT
  · simp [h, forwarded]
  · simp [h, dropped]

/-- A packet is passed through when filtering is disabled or the packet is no netbuffer. -/
theorem chain_pass_through (netfilter : GstNetfilter) (gst_pad_push : GstBuffer → GstFlowReturn)
    (debug : Bool) (l : ChainLocals) (packet : GstBuffer)
    (h : netfilter.filtering_enabled = false ∨ GST_IS_NETBUFFER packet = false) :
    gst_netfilter_chain netfilter gst_pad_push debug l packet
      = some { ret := gst_pad_push packet, pushed := [packet], unreffed := [], log := [] } := by
  obtain ⟨en, fa⟩ := netfilter
  unfold gst_netfilter_chain
  cases packet with
  | buffer d => cases en <;> simp [GST_NETBUFFER]
  | netbuffer d a t =>
    cases en
    · simp [GST_NETBUFFER]
    · simp [GST_IS_NETBUFFER] at h

/-! ## Theorems on the claims -/

/-- C1: with filtering enabled, a netbuffer whose origin address is IPv4 or IPv6 is pushed
downstream if and only if the origin address with its port replaced by `DUMMY_PORT` equals the
stored filter address under `gst_netaddress_equal`; when it is not equal the packet is released
and nothing is pushed. -/
theorem chain_forwards_iff_normalised_origin_equal
    (netfilter : GstNetfilter) (gst_pad_push : GstBuffer → GstFlowReturn) (debug : Bool)
    (locals : ChainLocals) (data : List Nat) (addr to_ : GstNetAddress)
    (henabled : netfilter.filtering_enabled = true)
    (hfamily : addr.type ≠ GST_NET_TYPE_UNKNOWN) :
    ∃ r, gst_netfilter_chain netfilter gst_pad_push debug locals (.netbuffer data addr to_)
          = some r ∧
      (r.pushed = [.netbuffer data addr to_] ↔
        gst_netaddress_equal netfilter.filter_address { addr with port := DUMMY_PORT }
          = some true) ∧
      (gst_netaddress_equal netfilter.filter_address { addr with port := DUMMY_PORT }
          ≠ some true →
        r.pushed = [] ∧ r.unreffed = [.netbuffer data addr to_] ∧ r.ret = GST_FLOW_OK) := by
  obtain ⟨en, fa⟩ := netfilter
  simp only at henabled
  subst henabled
  obtain ⟨r, hr, hfwd, hdrop⟩ := chain_enabled_netbuffer fa gst_pad_push debug locals data addr to_ (Or.inl hfamily)
  have hk : gst_netaddress_equal fa { addr with port := DUMMY_PORT }
      = some (decide (same_host fa addr ∧ fa.port = DUMMY_PORT)) :=
    equal_known fa { addr with port := DUMMY_PORT } (Or.inl hfamily)
  simp only [hk]
  refine ⟨r, hr, ?_, ?_⟩
  · by_cases h : same_host fa addr ∧ fa.port = DUMMY_PORT
    · have hp := (hfwd h).2.1
      simp [h, hp]
    · have hp := (hdrop h).2.1
      simp [h, hp]
  · intro hne
    have h : ¬ (same_host fa addr ∧ fa.port = DUMMY_PORT) := by
      intro hh
      apply hne
      simp [hh]
    have hd := hdrop h
    exact ⟨hd.2.1, hd.2.2, hd.1⟩

/-- Witness of C1: the filter 192.0.2.1, filtering enabled, a packet from 192.0.2.1:5000. -/
theorem chain_forwards_iff_normalised_origin_equal_witness :
    (⟨true, ip4 [192, 0, 2, 1] DUMMY_PORT⟩ : GstNetfilter).filtering_enabled = true ∧
    (ip4 [192, 0, 2, 1] 5000).type ≠ GST_NET_TYPE_UNKNOWN ∧
    ∃ r, gst_netfilter_chain ⟨true, ip4 [192, 0, 2, 1] DUMMY_PORT⟩ push_ok false locals0
          (.netbuffer [7] (ip4 [192, 0, 2, 1] 5000) (ip4 [] 0)) = some r ∧
      (r.pushed = [.netbuffer [7] (ip4 [192, 0, 2, 1] 5000) (ip4 [] 0)] ↔
        gst_netaddress_equal (ip4 [192, 0, 2, 1] DUMMY_PORT)
          { ip4 [192, 0, 2, 1] 5000 with port := DUMMY_PORT } = some true) ∧
      (gst_netaddress_equal (ip4 [192, 0, 2, 1] DUMMY_PORT)
          { ip4 [192, 0, 2, 1] 5000 with port := DUMMY_PORT } ≠ some true →
        r.pushed = [] ∧ r.unreffed = [.netbuffer [7] (ip4 [192, 0, 2, 1] 5000) (ip4 [] 0)] ∧
          r.ret = GST_FLOW_OK) :=
  ⟨rfl, by decide,
    chain_forwards_iff_normalised_origin_equal ⟨true, ip4 [192, 0, 2, 1] DUMMY_PORT⟩ push_ok
      false locals0 [7] (ip4 [192, 0, 2, 1] 5000) (ip4 [] 0) rfl (by decide)⟩

/-- C2: a packet that is no netbuffer is forwarded in every policy state: the very input packet
is handed to the downstream push, once, with its payload unchanged, nothing is released, and
the status is the one of the push. -/
theorem chain_forwards_plain_packet (netfilter : GstNetfilter)
    (gst_pad_push : GstBuffer → GstFlowReturn) (debug : Bool) (locals : ChainLocals)
    (data : List Nat) :
    ∃ r, gst_netfilter_chain netfilter gst_pad_push debug locals (.buffer data) = some r ∧
      r.pushed = [.buffer data] ∧ r.pushed.map GstBuffer.data = [data] ∧
      r.unreffed = [] ∧ r.ret = gst_pad_push (.buffer data) :=
  ⟨_, chain_pass_through netfilter gst_pad_push debug locals (.buffer data) (Or.inr rfl),
    rfl, rfl, rfl, rfl⟩

/-- C3: with filtering disabled every netbuffer is forwarded, whatever its origin address and
whatever the filter address; and the packet from 192.0.2.2:5000, dropped by the element
filtering on 192.0.2.1 (the state the setter gives on the constructed element), is forwarded
once the setter has set "enabled" to false. -/
theorem chain_forwards_when_disabled :
    (∀ (fa : GstNetAddress) (gst_pad_push : GstBuffer → GstFlowReturn) (debug : Bool)
        (locals : ChainLocals) (data : List Nat) (addr to_ : GstNetAddress),
      ∃ r, gst_netfilter_chain ⟨false, fa⟩ gst_pad_push debug locals (.netbuffer data addr to_)
            = some r ∧
        r.pushed = [.netbuffer data addr to_] ∧ r.unreffed = [] ∧
        r.ret = gst_pad_push (.netbuffer data addr to_)) ∧
    gst_netfilter_set_property (resolves_ip4 [192, 0, 2, 1]) (gst_netfilter_init zeroed_instance)
        PROP_FILTER_ADDRESS (.string (some "192.0.2.1")) = some (scenario_filter, []) ∧
    gst_netfilter_set_property (resolves_ip4 [192, 0, 2, 1]) scenario_filter
        PROP_ENABLED (.boolean false)
      = some (scenario_disabled, [⟨.GST_LEVEL_DEBUG, "Filtering is %s"⟩]) ∧
    (∀ (gst_pad_push : GstBuffer → GstFlowReturn) (debug : Bool) (locals : ChainLocals)
        (data : List Nat),
      scenario_filter.filtering_enabled = true ∧
      (∃ r, gst_netfilter_chain scenario_filter gst_pad_push debug locals
              (packet_from data [192, 0, 2, 2] 5000) = some r ∧
        dropped (packet_from data [192, 0, 2, 2] 5000) r) ∧
      scenario_disabled.filtering_enabled = false ∧
      scenario_disabled.filter_address = scenario_filter.filter_address ∧
      (∃ r, gst_netfilter_chain scenario_disabled gst_pad_push debug locals
              (packet_from data [192, 0, 2, 2] 5000) = some r ∧
        forwarded gst_pad_push (packet_from data [192, 0, 2, 2] 5000) r)) := by
  refine ⟨?_, rfl, rfl, ?_⟩
  · intro fa gst_pad_push debug locals data addr to_
    exact ⟨_, chain_pass_through ⟨false, fa⟩ gst_pad_push debug locals _ (Or.inl rfl),
      rfl, rfl, rfl⟩
  · intro gst_pad_push debug locals data
    refine ⟨rfl, ?_, rfl, rfl, ?_⟩
    · obtain ⟨r, hr, _, hdrop⟩ :=
        chain_enabled_netbuffer scenario_filter.filter_address gst_pad_push debug locals data
          (ip4 [192, 0, 2, 2] 5000) (ip4 [] 0) (Or.inl (by decide))
      exact ⟨r, hr, hdrop (by decide)⟩
    · exact ⟨_, chain_pass_through scenario_disabled gst_pad_push debug locals _ (Or.inl rfl),
        rfl, rfl, rfl⟩

/-- C4: for every policy state and every packet (a plain buffer, or a netbuffer with an IPv4 or
IPv6 origin) the chain function returns, and either the packet was pushed exactly once and the
returned status is the status of that push, or the packet was released, nothing was pushed and
the returned status is `GST_FLOW_OK`; so a status other than `GST_FLOW_OK` is the status the
single downstream push returned. -/
theorem chain_status_is_push_status_or_ok (netfilter : GstNetfilter)
    (gst_pad_push : GstBuffer → GstFlowReturn) (debug : Bool) (locals : ChainLocals)
    (packet : GstBuffer)
    (hfamily : ∀ d a t, packet = .netbuffer d a t → a.type ≠ GST_NET_TYPE_UNKNOWN) :
    ∃ r, gst_netfilter_chain netfilter gst_pad_push debug locals packet = some r ∧
      ((r.pushed = [packet] ∧ r.unreffed = [] ∧ r.ret = gst_pad_push packet) ∨
        (r.pushed = [] ∧ r.unreffed = [packet] ∧ r.ret = GST_FLOW_OK)) ∧
      (r.ret ≠ GST_FLOW_OK → r.pushed = [packet] ∧ gst_pad_push packet = r.ret) := by
  obtain ⟨en, fa⟩ := netfilter
  have pass : ∀ r : ChainResult, (r.pushed = [packet] ∧ r.unreffed = [] ∧ r.ret = gst_pad_push packet) →
      ((r.pushed = [packet] ∧ r.unreffed = [] ∧ r.ret = gst_pad_push packet) ∨
        (r.pushed = [] ∧ r.unreffed = [packet] ∧ r.ret = GST_FLOW_OK)) ∧
      (r.ret ≠ GST_FLOW_OK → r.pushed = [packet] ∧ gst_pad_push packet = r.ret) :=
    fun r h => ⟨Or.inl h, fun _ => ⟨h.1, h.2.2.symm⟩⟩
  cases packet with
  | buffer d =>
    exact ⟨_, chain_pass_through ⟨en, fa⟩ gst_pad_push debug locals _ (Or.inr rfl),
      pass _ ⟨rfl, rfl, rfl⟩⟩
  | netbuffer d a t =>
    cases en
    · exact ⟨_, chain_pass_through ⟨false, fa⟩ gst_pad_push debug locals _ (Or.inl rfl),
        pass _ ⟨rfl, rfl, rfl⟩⟩
    · obtain ⟨r, hr, hfwd, hdrop⟩ :=
        chain_enabled_netbuffer fa gst_pad_push debug locals d a t (Or.inl (hfamily d a t rfl))
      refine ⟨r, hr, ?_⟩
      by_cases h : same_host fa a ∧ fa.port = DUMMY_PORT
      · have hf := hfwd h
        exact pass r ⟨hf.2.1, hf.2.2, hf.1⟩
      · have hd := hdrop h
        exact ⟨Or.inr ⟨hd.2.1, hd.2.2, hd.1⟩, fun hne => absurd hd.1 hne⟩

/-- Witness of C4: a downstream that fails with status -1, the filter 192.0.2.1, a packet from
192.0.2.1:5000. -/
theorem chain_status_is_push_status_or_ok_witness :
    (∀ d a t, packet_from [7] [192, 0, 2, 1] 5000 = .netbuffer d a t →
      a.type ≠ GST_NET_TYPE_UNKNOWN) ∧
    ∃ r, gst_netfilter_chain scenario_filter (fun _ => -1) false locals0
          (packet_from [7] [192, 0, 2, 1] 5000) = some r ∧
      ((r.pushed = [packet_from [7] [192, 0, 2, 1] 5000] ∧ r.unreffed = [] ∧
          r.ret = (fun _ => -1) (packet_from [7] [192, 0, 2, 1] 5000)) ∨
        (r.pushed = [] ∧ r.unreffed = [packet_from [7] [192, 0, 2, 1] 5000] ∧
          r.ret = GST_FLOW_OK)) ∧
      (r.ret ≠ GST_FLOW_OK →
        r.pushed = [packet_from [7] [192, 0, 2, 1] 5000] ∧
          (fun _ => -1) (packet_from [7] [192, 0, 2, 1] 5000) = r.ret) :=
  have hfamily : ∀ d a t, packet_from [7] [192, 0, 2, 1] 5000 = .netbuffer d a t →
      a.type ≠ GST_NET_TYPE_UNKNOWN := by
    intro d a t h
    unfold packet_from at h
    cases h
    decide
  ⟨hfamily, chain_status_is_push_status_or_ok scenario_filter (fun _ => -1) false locals0
    (packet_from [7] [192, 0, 2, 1] 5000) hfamily⟩

/-- C5: the decision ignores the origin port. For every policy state and two netbuffers whose
IPv4 or IPv6 origins have the same family and raw bytes and any two ports, the comparison with
the filter address gives the same result, and the chain function either forwards both packets
or drops both. -/
theorem chain_outcome_ignores_origin_port (netfilter : GstNetfilter)
    (gst_pad_push : GstBuffer → GstFlowReturn) (debug1 debug2 : Bool)
    (locals1 locals2 : ChainLocals) (data1 data2 : List Nat) (to1 to2 : GstNetAddress)
    (family : GstNetType) (bytes : Bytes16) (p1 p2 : Nat)
    (hfamily : family ≠ GST_NET_TYPE_UNKNOWN) :
    gst_netaddress_equal netfilter.filter_address
        (modified_source_address locals1 ⟨family, bytes, p1⟩)
      = gst_netaddress_equal netfilter.filter_address
        (modified_source_address locals2 ⟨family, bytes, p2⟩) ∧
    ∃ r1 r2,
      gst_netfilter_chain netfilter gst_pad_push debug1 locals1
          (.netbuffer data1 ⟨family, bytes, p1⟩ to1) = some r1 ∧
      gst_netfilter_chain netfilter gst_pad_push debug2 locals2
          (.netbuffer data2 ⟨family, bytes, p2⟩ to2) = some r2 ∧
      ((forwarded gst_pad_push (.netbuffer data1 ⟨family, bytes, p1⟩ to1) r1 ∧
          forwarded gst_pad_push (.netbuffer data2 ⟨family, bytes, p2⟩ to2) r2) ∨
        (dropped (.netbuffer data1 ⟨family, bytes, p1⟩ to1) r1 ∧
          dropped (.netbuffer data2 ⟨family, bytes, p2⟩ to2) r2)) := by
  obtain ⟨en, fa⟩ := netfilter
  constructor
  · rw [equal_modified fa ⟨family, bytes, p1⟩ locals1 (Or.inl hfamily),
      equal_modified fa ⟨family, bytes, p2⟩ locals2 (Or.inl hfamily)]
    rfl
  · cases en
    · exact ⟨_, _, chain_pass_through ⟨false, fa⟩ gst_pad_push debug1 locals1 _ (Or.inl rfl),
        chain_pass_through ⟨false, fa⟩ gst_pad_push debug2 locals2 _ (Or.inl rfl),
        Or.inl ⟨⟨rfl, rfl, rfl⟩, ⟨rfl, rfl, rfl⟩⟩⟩
    · obtain ⟨r1, hr1, hfwd1, hdrop1⟩ :=
        chain_enabled_netbuffer fa gst_pad_push debug1 locals1 data1 ⟨family, bytes, p1⟩ to1
          (Or.inl hfamily)
      obtain ⟨r2, hr2, hfwd2, hdrop2⟩ :=
        chain_enabled_netbuffer fa gst_pad_push debug2 locals2 data2 ⟨family, bytes, p2⟩ to2
          (Or.inl hfamily)
      refine ⟨r1, r2, hr1, hr2, ?_⟩
      by_cases h : same_host fa ⟨family, bytes, p1⟩ ∧ fa.port = DUMMY_PORT
      · exact Or.inl ⟨hfwd1 h, hfwd2 h⟩
      · exact Or.inr ⟨hdrop1 h, hdrop2 h⟩

/-- Witness of C5: the filter 192.0.2.1 and two packets from 192.0.2.1, ports 5000 and 6000. -/
theorem chain_outcome_ignores_origin_port_witness :
    GST_NET_TYPE_IP4 ≠ GST_NET_TYPE_UNKNOWN ∧
    (gst_netaddress_equal scenario_filter.filter_address
        (modified_source_address locals0 ⟨GST_NET_TYPE_IP4, Bytes16.ofList [192, 0, 2, 1], 5000⟩)
      = gst_netaddress_equal scenario_filter.filter_address
        (modified_source_address locals0 ⟨GST_NET_TYPE_IP4, Bytes16.ofList [192, 0, 2, 1], 6000⟩) ∧
    ∃ r1 r2,
      gst_netfilter_chain scenario_filter push_ok false locals0
          (.netbuffer [1] ⟨GST_NET_TYPE_IP4, Bytes16.ofList [192, 0, 2, 1], 5000⟩ (ip4 [] 0))
        = some r1 ∧
      gst_netfilter_chain scenario_filter push_ok false locals0
          (.netbuffer [2] ⟨GST_NET_TYPE_IP4, Bytes16.ofList [192, 0, 2, 1], 6000⟩ (ip4 [] 0))
        = some r2 ∧
      ((forwarded push_ok
            (.netbuffer [1] ⟨GST_NET_TYPE_IP4, Bytes16.ofList [192, 0, 2, 1], 5000⟩ (ip4 [] 0)) r1 ∧
          forwarded push_ok
            (.netbuffer [2] ⟨GST_NET_TYPE_IP4, Bytes16.ofList [192, 0, 2, 1], 6000⟩ (ip4 [] 0)) r2) ∨
        (dropped
            (.netbuffer [1] ⟨GST_NET_TYPE_IP4, Bytes16.ofList [192, 0, 2, 1], 5000⟩ (ip4 [] 0)) r1 ∧
          dropped
            (.netbuffer [2] ⟨GST_NET_TYPE_IP4, Bytes16.ofList [192, 0, 2, 1], 6000⟩ (ip4 [] 0)) r2))) :=
  ⟨by decide,
    chain_outcome_ignores_origin_port scenario_filter push_ok false false locals0 locals0 [1] [2]
      (ip4 [] 0) (ip4 [] 0) GST_NET_TYPE_IP4 (Bytes16.ofList [192, 0, 2, 1]) 5000 6000
      (by decide)⟩

/-- C6: the claim fails on the lookup-failure path. With the element filtering on 192.0.2.1 and
a resolver that fails with error -2, the setter logs the error and then calls `freeaddrinfo` on
the local `result` that was never written: the behaviour is undefined, the call does not return
the unchanged state. On the sibling path, a first result of a family that is neither `AF_INET`
nor `AF_INET6` (here family 1), `result` was written and the setter returns the unchanged state
with one error-level log call. -/
theorem set_filter_address_lookup_failure_is_undefined :
    (resolver_fails (-2) (g_value_get_string (.string (some "not-a-real-host.invalid")))).1 ≠ 0 ∧
    gst_netfilter_set_property (resolver_fails (-2)) scenario_filter PROP_FILTER_ADDRESS
        (.string (some "not-a-real-host.invalid")) = none ∧
    gst_netfilter_set_property (resolves_family 1) scenario_filter PROP_FILTER_ADDRESS
        (.string (some "not-a-real-host.invalid"))
      = some (scenario_filter,
          [⟨.GST_LEVEL_ERROR, "Could not set filter address property: unknown address family %d"⟩]) :=
  ⟨by decide, rfl, rfl⟩

/-! ### Lemmas on a stored filter address -/

theorem same_host_set_ip4 (old a : GstNetAddress) (b : Bytes4) (port : Nat) :
    same_host (gst_netaddress_set_ip4_address old b port) a ↔
      a.type = GST_NET_TYPE_IP4 ∧ ∀ i : Fin 4, a.address (Fin.castLE (by decide) i) = b i := by
  unfold same_host gst_netaddress_set_ip4_address
  constructor
  · rintro ⟨ht, hb⟩
    simp only at ht hb
    refine ⟨ht.symm, fun i => ?_⟩
    rw [← ht] at hb
    have h := hb (Fin.castLE (by decide) i) (by simp [raw_len])
    simp at h
    exact h.symm
  · rintro ⟨ht, hb⟩
    refine ⟨ht.symm, ?_⟩
    rw [ht]
    intro i hi
    simp only [raw_len] at hi
    simp only [hi, dite_true]
    exact (hb ⟨i.val, hi⟩).symm

theorem same_host_set_ip6 (old a : GstNetAddress) (b : Bytes16) (port : Nat) :
    same_host (gst_netaddress_set_ip6_address old b port) a ↔
      a.type = GST_NET_TYPE_IP6 ∧ a.address = b := by
  unfold same_host gst_netaddress_set_ip6_address
  constructor
  · rintro ⟨ht, hb⟩
    simp only at ht hb
    rw [← ht] at hb
    exact ⟨ht.symm, ((bytes_agree_sixteen _ _).mp hb).symm⟩
  · rintro ⟨ht, hb⟩
    refine ⟨ht.symm, ?_⟩
    rw [ht, hb]
    exact bytes_agree_refl _ _

theorem af_inet_ne_af_inet6 : AF_INET ≠ AF_INET6 := by decide

/-- A set of "filter-address" whose lookup fails reaches `freeaddrinfo` with `result` never
written. -/
theorem set_filter_address_lookup_failure (getaddrinfo : Option String → Int × addrinfo)
    (netfilter : GstNetfilter) (value : GValue)
    (herr : (getaddrinfo (g_value_get_string value)).1 ≠ 0) :
    gst_netfilter_set_property getaddrinfo netfilter PROP_FILTER_ADDRESS value = none := by
  simp [gst_netfilter_set_property, freeaddrinfo, herr]

/-- A set of "filter-address" whose lookup gives a family other than IPv4 and IPv6 returns the
state it was given and logs one error. -/
theorem set_filter_address_unsupported_family (getaddrinfo : Option String → Int × addrinfo)
    (netfilter : GstNetfilter) (value : GValue)
    (hok : (getaddrinfo (g_value_get_string value)).1 = 0)
    (h4 : (getaddrinfo (g_value_get_string value)).2.ai_family ≠ AF_INET)
    (h6 : (getaddrinfo (g_value_get_string value)).2.ai_family ≠ AF_INET6) :
    gst_netfilter_set_property getaddrinfo netfilter PROP_FILTER_ADDRESS value
      = some (netfilter,
          [⟨.GST_LEVEL_ERROR, "Could not set filter address property: unknown address family %d"⟩]) := by
  simp [gst_netfilter_set_property, freeaddrinfo, hok, h4, h6]

/-- The state after a successful set of "filter-address". -/
theorem set_filter_address_success (getaddrinfo : Option String → Int × addrinfo)
    (netfilter : GstNetfilter) (value : GValue)
    (hok : (getaddrinfo (g_value_get_string value)).1 = 0)
    (hfam : (getaddrinfo (g_value_get_string value)).2.ai_family = AF_INET ∨
      (getaddrinfo (g_value_get_string value)).2.ai_family = AF_INET6) :
    ∃ fa : GstNetAddress,
      gst_netfilter_set_property getaddrinfo netfilter PROP_FILTER_ADDRESS value
        = some (⟨netfilter.filtering_enabled, fa⟩, []) ∧
      fa.port = DUMMY_PORT ∧ fa.type ≠ GST_NET_TYPE_UNKNOWN ∧
      ∀ a, same_host fa a ↔ resolved_host (getaddrinfo (g_value_get_string value)).2 a := by
  unfold gst_netfilter_set_property
  by_cases h4 : (getaddrinfo (g_value_get_string value)).2.ai_family = AF_INET
  · refine ⟨gst_netaddress_set_ip4_address netfilter.filter_address
      (getaddrinfo (g_value_get_string value)).2.sin_addr DUMMY_PORT, ?_, rfl, ?_, ?_⟩
    · simp [freeaddrinfo, hok, h4]
    · simp [gst_netaddress_set_ip4_address]
    · intro a
      rw [same_host_set_ip4]
      unfold resolved_host
      simp [h4, af_inet_ne_af_inet6]
  · have h6 : (getaddrinfo (g_value_get_string value)).2.ai_family = AF_INET6 := by
      rcases hfam with h | h
      · exact absurd h h4
      · exact h
    refine ⟨gst_netaddress_set_ip6_address netfilter.filter_address
      (getaddrinfo (g_value_get_string value)).2.sin6_addr DUMMY_PORT, ?_, rfl, ?_, ?_⟩
    · simp [freeaddrinfo, hok, h6, af_inet_ne_af_inet6.symm]
    · simp [gst_netaddress_set_ip6_address]
    · intro a
      rw [same_host_set_ip6]
      unfold resolved_host
      simp [h6, af_inet_ne_af_inet6.symm]

theorem same_host_refl (a : GstNetAddress) : same_host a a := ⟨rfl, bytes_agree_refl _ _⟩

/-- C7: a set of "filter-address" with no resolver error and a first result of family `AF_INET`
or `AF_INET6` returns, without a log call, a state whose filter address has the family and raw
bytes of the result and port `DUMMY_PORT`; the enabled flag is unchanged, and with filtering
enabled a netbuffer is forwarded if and only if its origin has the family and raw bytes of the
result, whatever its port (otherwise it is dropped). With the filter 192.0.2.1 set on the
constructed element: a packet from 192.0.2.1:5000 is forwarded, one from 192.0.2.2:5000 is
dropped, a plain buffer is forwarded. -/
theorem set_filter_address_success_filters_on_resolved_host
    (getaddrinfo : Option String → Int × addrinfo) (netfilter : GstNetfilter) (value : GValue)
    (hok : (getaddrinfo (g_value_get_string value)).1 = 0)
    (hfam : (getaddrinfo (g_value_get_string value)).2.ai_family = AF_INET ∨
      (getaddrinfo (g_value_get_string value)).2.ai_family = AF_INET6) :
    (∃ new : GstNetfilter,
      gst_netfilter_set_property getaddrinfo netfilter PROP_FILTER_ADDRESS value
        = some (new, []) ∧
      resolved_host (getaddrinfo (g_value_get_string value)).2 new.filter_address ∧
      new.filter_address.port = DUMMY_PORT ∧
      new.filtering_enabled = netfilter.filtering_enabled ∧
      (netfilter.filtering_enabled = true →
        ∀ (gst_pad_push : GstBuffer → GstFlowReturn) (debug : Bool) (locals : ChainLocals)
          (data : List Nat) (addr to_ : GstNetAddress),
        ∃ r, gst_netfilter_chain new gst_pad_push debug locals (.netbuffer data addr to_)
              = some r ∧
          (resolved_host (getaddrinfo (g_value_get_string value)).2 addr →
            forwarded gst_pad_push (.netbuffer data addr to_) r) ∧
          (¬ resolved_host (getaddrinfo (g_value_get_string value)).2 addr →
            dropped (.netbuffer data addr to_) r))) ∧
    gst_netfilter_set_property (resolves_ip4 [192, 0, 2, 1]) (gst_netfilter_init zeroed_instance)
        PROP_FILTER_ADDRESS (.string (some "192.0.2.1")) = some (scenario_filter, []) ∧
    (∀ (gst_pad_push : GstBuffer → GstFlowReturn) (debug : Bool) (locals : ChainLocals)
        (data : List Nat),
      (∃ r, gst_netfilter_chain scenario_filter gst_pad_push debug locals
              (packet_from data [192, 0, 2, 1] 5000) = some r ∧
        forwarded gst_pad_push (packet_from data [192, 0, 2, 1] 5000) r) ∧
      (∃ r, gst_netfilter_chain scenario_filter gst_pad_push debug locals
              (packet_from data [192, 0, 2, 2] 5000) = some r ∧
        dropped (packet_from data [192, 0, 2, 2] 5000) r) ∧
      (∃ r, gst_netfilter_chain scenario_filter gst_pad_push debug locals (.buffer data) = some r ∧
        forwarded gst_pad_push (.buffer data) r)) := by
  obtain ⟨fa, hnew, hport, htype, hhost⟩ :=
    set_filter_address_success getaddrinfo netfilter value hok hfam
  refine ⟨⟨⟨netfilter.filtering_enabled, fa⟩, hnew, (hhost fa).mp (same_host_refl fa), hport,
    rfl, ?_⟩, rfl, ?_⟩
  · intro hen gst_pad_push debug locals data addr to_
    simp only [hen]
    obtain ⟨r, hr, hfwd, hdrop⟩ :=
      chain_enabled_netbuffer fa gst_pad_push debug locals data addr to_ (Or.inr htype)
    refine ⟨r, hr, ?_, ?_⟩
    · intro h
      exact hfwd ⟨(hhost addr).mpr h, hport⟩
    · intro h
      exact hdrop (fun hh => h ((hhost addr).mp hh.1))
  · intro gst_pad_push debug locals data
    refine ⟨?_, ?_, ?_⟩
    · obtain ⟨r, hr, hfwd, _⟩ :=
        chain_enabled_netbuffer scenario_filter.filter_address gst_pad_push debug locals data
          (ip4 [192, 0, 2, 1] 5000) (ip4 [] 0) (Or.inl (by decide))
      exact ⟨r, hr, hfwd (by decide)⟩
    · obtain ⟨r, hr, _, hdrop⟩ :=
        chain_enabled_netbuffer scenario_filter.filter_address gst_pad_push debug locals data
          (ip4 [192, 0, 2, 2] 5000) (ip4 [] 0) (Or.inl (by decide))
      exact ⟨r, hr, hdrop (by decide)⟩
    · exact ⟨_, chain_pass_through scenario_filter gst_pad_push debug locals _ (Or.inr rfl),
        rfl, rfl, rfl⟩

/-- Witness of C7: "filter-address" is set to 192.0.2.1 on the freshly constructed element. -/
theorem set_filter_address_success_filters_on_resolved_host_witness :
    ((resolves_ip4 [192, 0, 2, 1]) (g_value_get_string (.string (some "192.0.2.1")))).1 = 0 ∧
    (((resolves_ip4 [192, 0, 2, 1]) (g_value_get_string (.string (some "192.0.2.1")))).2.ai_family = AF_INET ∨
      ((resolves_ip4 [192, 0, 2, 1]) (g_value_get_string (.string (some "192.0.2.1")))).2.ai_family = AF_INET6) ∧
    ((∃ new : GstNetfilter,
      gst_netfilter_set_property (resolves_ip4 [192, 0, 2, 1]) (gst_netfilter_init zeroed_instance) PROP_FILTER_ADDRESS (.string (some "192.0.2.1"))
        = some (new, []) ∧
      resolved_host ((resolves_ip4 [192, 0, 2, 1]) (g_value_get_string (.string (some "192.0.2.1")))).2 new.filter_address ∧
      new.filter_address.port = DUMMY_PORT ∧
      new.filtering_enabled = (gst_netfilter_init zeroed_instance).filtering_enabled ∧
      ((gst_netfilter_init zeroed_instance).filtering_enabled = true →
        ∀ (gst_pad_push : GstBuffer → GstFlowReturn) (debug : Bool) (locals : ChainLocals)
          (data : List Nat) (addr to_ : GstNetAddress),
        ∃ r, gst_netfilter_chain new gst_pad_push debug locals (.netbuffer data addr to_)
              = some r ∧
          (resolved_host ((resolves_ip4 [192, 0, 2, 1]) (g_value_get_string (.string (some "192.0.2.1")))).2 addr →
            forwarded gst_pad_push (.netbuffer data addr to_) r) ∧
          (¬ resolved_host ((resolves_ip4 [192, 0, 2, 1]) (g_value_get_string (.string (some "192.0.2.1")))).2 addr →
            dropped (.netbuffer data addr to_) r))) ∧
    gst_netfilter_set_property (resolves_ip4 [192, 0, 2, 1]) (gst_netfilter_init zeroed_instance)
        PROP_FILTER_ADDRESS (.string (some "192.0.2.1")) = some (scenario_filter, []) ∧
    (∀ (gst_pad_push : GstBuffer → GstFlowReturn) (debug : Bool) (locals : ChainLocals)
        (data : List Nat),
      (∃ r, gst_netfilter_chain scenario_filter gst_pad_push debug locals
              (packet_from data [192, 0, 2, 1] 5000) = some r ∧
        forwarded gst_pad_push (packet_from data [192, 0, 2, 1] 5000) r) ∧
      (∃ r, gst_netfilter_chain scenario_filter gst_pad_push debug locals
              (packet_from data [192, 0, 2, 2] 5000) = some r ∧
        dropped (packet_from data [192, 0, 2, 2] 5000) r) ∧
      (∃ r, gst_netfilter_chain scenario_filter gst_pad_push debug locals (.buffer data) = some r ∧
        forwarded gst_pad_push (.buffer data) r))) :=
  ⟨rfl, Or.inl rfl,
    set_filter_address_success_filters_on_resolved_host (resolves_ip4 [192, 0, 2, 1])
      (gst_netfilter_init zeroed_instance) (.string (some "192.0.2.1")) rfl (Or.inl rfl)⟩

/-! ### Reachable states -/

theorem equal_port_ne (f b : GstNetAddress) (hp : f.port ≠ b.port) :
    gst_netaddress_equal f b = some false := by
  unfold gst_netaddress_equal
  by_cases ht : f.type = b.type <;> simp [ht, hp]

/-- The chain function returns whenever a filter address of unknown family does not carry
`DUMMY_PORT`. -/
theorem chain_defined (netfilter : GstNetfilter) (gst_pad_push : GstBuffer → GstFlowReturn)
    (debug : Bool) (l : ChainLocals) (packet : GstBuffer)
    (h : netfilter.filter_address.type = GST_NET_TYPE_UNKNOWN →
      netfilter.filter_address.port ≠ DUMMY_PORT) :
    ∃ r, gst_netfilter_chain netfilter gst_pad_push debug l packet = some r := by
  obtain ⟨en, fa⟩ := netfilter
  cases packet with
  | buffer d => exact ⟨_, chain_pass_through ⟨en, fa⟩ gst_pad_push debug l _ (Or.inr rfl)⟩
  | netbuffer d a t =>
    cases en
    · exact ⟨_, chain_pass_through ⟨false, fa⟩ gst_pad_push debug l _ (Or.inl rfl)⟩
    · by_cases hfa : fa.type = GST_NET_TYPE_UNKNOWN
      · have hp : fa.port ≠ (modified_source_address l a).port := by
          rw [modified_port]
          exact h hfa
        have he := equal_port_ne fa (modified_source_address l a) hp
        unfold gst_netfilter_chain
        simp only [GST_NETBUFFER, he]
        exact ⟨_, rfl⟩
      · obtain ⟨r, hr, _⟩ := chain_enabled_netbuffer fa gst_pad_push debug l d a t (Or.inr hfa)
        exact ⟨r, hr⟩

theorem address_state_unknown (set : Bool) (netfilter : GstNetfilter)
    (h : address_state set netfilter) :
    netfilter.filter_address.type = GST_NET_TYPE_UNKNOWN →
      netfilter.filter_address.port ≠ DUMMY_PORT := by
  intro ht
  rcases h with ⟨_, hz⟩ | ⟨_, _, hk⟩
  · rw [hz]
    decide
  · exact absurd ht hk

/-- A call other than a successful set of "filter-address" leaves the filter address as it
was. -/
theorem step_keeps_address (netfilter next : GstNetfilter) (e : Event)
    (hstep : step netfilter e = some next) (hs : e.sets_address = false) :
    next.filter_address = netfilter.filter_address := by
  cases e with
  | chain gst_pad_push debug locals packet =>
    simp only [step, Option.map_eq_some'] at hstep
    obtain ⟨_, _, hn⟩ := hstep
    rw [← hn]
  | set_property getaddrinfo prop_id value =>
    simp only [Event.sets_address, decide_eq_false_iff_not] at hs
    simp only [step, Option.map_eq_some'] at hstep
    obtain ⟨⟨n, lg⟩, hset, hn⟩ := hstep
    simp only at hn
    subst hn
    by_cases hid : prop_id = PROP_FILTER_ADDRESS
    · subst hid
      by_cases herr : (getaddrinfo (g_value_get_string value)).1 = 0
      · have h4 : (getaddrinfo (g_value_get_string value)).2.ai_family ≠ AF_INET :=
          fun hf => hs ⟨rfl, herr, Or.inl hf⟩
        have h6 : (getaddrinfo (g_value_get_string value)).2.ai_family ≠ AF_INET6 :=
          fun hf => hs ⟨rfl, herr, Or.inr hf⟩
        rw [set_filter_address_unsupported_family getaddrinfo netfilter value herr h4 h6] at hset
        simp only [Option.some.injEq, Prod.mk.injEq] at hset
        rw [← hset.1]
      · rw [set_filter_address_lookup_failure getaddrinfo netfilter value herr] at hset
        cases hset
    · unfold gst_netfilter_set_property at hset
      by_cases hen : prop_id = PROP_ENABLED
      · rw [if_neg hid, if_pos hen] at hset
        simp only [Option.some.injEq, Prod.mk.injEq] at hset
        rw [← hset.1]
      · rw [if_neg hid, if_neg hen] at hset
        simp only [Option.some.injEq, Prod.mk.injEq] at hset
        rw [← hset.1]

/-- What a successful set of "filter-address" stores. -/
theorem step_sets_address (netfilter next : GstNetfilter)
    (getaddrinfo : Option String → Int × addrinfo) (prop_id : Nat) (value : GValue)
    (hstep : step netfilter (.set_property getaddrinfo prop_id value) = some next)
    (hs : (Event.set_property getaddrinfo prop_id value).sets_address = true) :
    next.filter_address.port = DUMMY_PORT ∧
    next.filter_address.type ≠ GST_NET_TYPE_UNKNOWN ∧
    resolved_host (getaddrinfo (g_value_get_string value)).2 next.filter_address ∧
    next.filtering_enabled = netfilter.filtering_enabled := by
  simp only [Event.sets_address, decide_eq_true_eq] at hs
  obtain ⟨hid, herr, hfam⟩ := hs
  subst hid
  obtain ⟨fa, hnew, hport, htype, hhost⟩ :=
    set_filter_address_success getaddrinfo netfilter value herr hfam
  simp only [step, hnew, Option.map_some', Option.some.injEq] at hstep
  subst hstep
  exact ⟨hport, htype, (hhost fa).mp (same_host_refl fa), rfl⟩

theorem address_state_step (set : Bool) (netfilter next : GstNetfilter) (e : Event)
    (h : address_state set netfilter) (hstep : step netfilter e = some next) :
    address_state (set || e.sets_address) next := by
  cases hs : e.sets_address
  · rw [Bool.or_false]
    have hk := step_keeps_address netfilter next e hstep hs
    unfold address_state at h ⊢
    rw [hk]
    exact h
  · rw [Bool.or_true]
    cases e with
    | chain gst_pad_push debug locals packet => simp [Event.sets_address] at hs
    | set_property getaddrinfo prop_id value =>
      obtain ⟨hport, htype, _, _⟩ :=
        step_sets_address netfilter next getaddrinfo prop_id value hstep hs
      exact Or.inr ⟨rfl, hport, htype⟩

/-- From a state of the element, a call fails to return exactly when it is a set of
"filter-address" whose lookup fails. -/
theorem step_none_iff (set : Bool) (netfilter : GstNetfilter) (e : Event)
    (h : address_state set netfilter) :
    step netfilter e = none ↔ e.lookup_fails = true := by
  cases e with
  | chain gst_pad_push debug locals packet =>
    obtain ⟨r, hr⟩ := chain_defined netfilter gst_pad_push debug locals packet
      (address_state_unknown set netfilter h)
    simp [step, hr, Event.lookup_fails]
  | set_property getaddrinfo prop_id value =>
    simp only [step, Option.map_eq_none', Event.lookup_fails, decide_eq_true_eq]
    by_cases hid : prop_id = PROP_FILTER_ADDRESS
    · subst hid
      by_cases herr : (getaddrinfo (g_value_get_string value)).1 = 0
      · by_cases hfam : (getaddrinfo (g_value_get_string value)).2.ai_family = AF_INET ∨
            (getaddrinfo (g_value_get_string value)).2.ai_family = AF_INET6
        · obtain ⟨fa, hnew, _⟩ :=
            set_filter_address_success getaddrinfo netfilter value herr hfam
          simp [hnew, herr]
        · have h4 : (getaddrinfo (g_value_get_string value)).2.ai_family ≠ AF_INET :=
            fun hf => hfam (Or.inl hf)
          have h6 : (getaddrinfo (g_value_get_string value)).2.ai_family ≠ AF_INET6 :=
            fun hf => hfam (Or.inr hf)
          simp [set_filter_address_unsupported_family getaddrinfo netfilter value herr h4 h6,
            herr]
      · simp [set_filter_address_lookup_failure getaddrinfo netfilter value herr, herr]
    · unfold gst_netfilter_set_property
      by_cases hen : prop_id = PROP_ENABLED
      · rw [if_neg hid, if_pos hen]
        simp [hid]
      · rw [if_neg hid, if_neg hen]
        simp [hid]

theorem run_from_spec (events : List Event) :
    ∀ (set : Bool) (netfilter : GstNetfilter), address_state set netfilter →
      (run_from netfilter events = none ↔ events.any Event.lookup_fails = true) ∧
      ∀ last, run_from netfilter events = some last →
        address_state (set || events.any Event.sets_address) last := by
  induction events with
  | nil =>
    intro set netfilter h
    refine ⟨by simp [run_from], ?_⟩
    intro last hl
    simp only [run_from, Option.some.injEq] at hl
    subst hl
    simpa using h
  | cons e es ih =>
    intro set netfilter h
    cases hstep : step netfilter e with
    | none =>
      have hf := (step_none_iff set netfilter e h).mp hstep
      simp [run_from, hstep, hf]
    | some next =>
      have hf : e.lookup_fails = false := by
        cases hl : e.lookup_fails
        · rfl
        · rw [(step_none_iff set netfilter e h).mpr hl] at hstep
          cases hstep
      have h2 := ih (set || e.sets_address) next (address_state_step set netfilter next e h hstep)
      simp only [run_from, hstep, List.any_cons, hf, Bool.false_or]
      refine ⟨h2.1, ?_⟩
      intro last hl
      have h3 := h2.2 last hl
      simpa [Bool.or_assoc] using h3

/-- C8 as stated fails: the freshly constructed element has a filter address with port 0, not
`DUMMY_PORT`, and it is still in that state after a set of "filter-address" rejected for its
family, a set of "enabled" and a processed packet. -/
theorem fresh_filter_address_port_is_not_dummy_port :
    run [] = some (gst_netfilter_init zeroed_instance) ∧
    (gst_netfilter_init zeroed_instance).filter_address.port = 0 ∧
    (gst_netfilter_init zeroed_instance).filter_address.port ≠ DUMMY_PORT ∧
    run [.set_property (resolves_family 1) PROP_FILTER_ADDRESS (.string (some "x.invalid")),
         .set_property (resolves_family 1) PROP_ENABLED (.boolean true),
         .chain push_ok false locals0 (packet_from [7] [192, 0, 2, 1] 5000)]
      = some (gst_netfilter_init zeroed_instance) := by
  refine ⟨rfl, rfl, by decide, rfl⟩

/-- C8, amended: a sequence of property sets and chain calls made on the constructed element,
none of them a set of "filter-address" whose lookup fails, returns. In every state reached from
construction, the filter address is the all-zero value of construction when no set of
"filter-address" has succeeded, and carries port `DUMMY_PORT` with a known family when one has.
From such a state every call that is not a set of "filter-address" with a failing lookup
returns; a call that returns and is not a successful set of "filter-address" (a set rejected for
its family, a set of "enabled" or of an unknown property, a chain call) leaves the filter address
exactly as it was; a successful set of "filter-address" stores the family and raw bytes of the
resolved result with port `DUMMY_PORT` and keeps the enabled flag. -/
theorem reachable_filter_address_is_zero_or_has_dummy_port (events : List Event) :
    (events.any Event.lookup_fails = false → ∃ s, run events = some s) ∧
    ∀ s, run events = some s →
      ((events.any Event.sets_address = false ∧
          s.filter_address = zeroed_instance.filter_address) ∨
        (events.any Event.sets_address = true ∧ s.filter_address.port = DUMMY_PORT ∧
          s.filter_address.type ≠ GST_NET_TYPE_UNKNOWN)) ∧
      (∀ e, e.lookup_fails = false → ∃ next, step s e = some next) ∧
      (∀ e next, step s e = some next → e.sets_address = false →
        next.filter_address = s.filter_address) ∧
      (∀ getaddrinfo prop_id value next,
        step s (.set_property getaddrinfo prop_id value) = some next →
        (Event.set_property getaddrinfo prop_id value).sets_address = true →
        next.filter_address.port = DUMMY_PORT ∧
        next.filter_address.type ≠ GST_NET_TYPE_UNKNOWN ∧
        resolved_host (getaddrinfo (g_value_get_string value)).2 next.filter_address ∧
        next.filtering_enabled = s.filtering_enabled) := by
  have h := run_from_spec events false (gst_netfilter_init zeroed_instance) (Or.inl ⟨rfl, rfl⟩)
  have some_of_ne_none : ∀ o : Option GstNetfilter, o ≠ none → ∃ x, o = some x := by
    intro o ho
    cases o with
    | none => exact absurd rfl ho
    | some x => exact ⟨x, rfl⟩
  constructor
  · intro hno
    apply some_of_ne_none
    intro hnone
    rw [h.1.mp hnone] at hno
    cases hno
  · intro s hs
    have hst := h.2 s hs
    refine ⟨?_, ?_, fun e next => step_keeps_address s next e,
      fun getaddrinfo prop_id value next => step_sets_address s next getaddrinfo prop_id value⟩
    · simpa [address_state] using hst
    · intro e he
      apply some_of_ne_none
      intro hnone
      rw [(step_none_iff _ s e hst).mp hnone] at he
      cases he

/-- Witness of C8, amended: the calls of `scenario_calls` return and leave the element filtering
on 192.0.2.1 with filtering disabled. -/
theorem reachable_filter_address_is_zero_or_has_dummy_port_witness :
    run scenario_calls = some scenario_disabled ∧
    (((scenario_calls.any Event.sets_address = false ∧
          scenario_disabled.filter_address = zeroed_instance.filter_address) ∨
        (scenario_calls.any Event.sets_address = true ∧ scenario_disabled.filter_address.port = DUMMY_PORT ∧
          scenario_disabled.filter_address.type ≠ GST_NET_TYPE_UNKNOWN)) ∧
      (∀ e, e.lookup_fails = false → ∃ next, step scenario_disabled e = some next) ∧
      (∀ e next, step scenario_disabled e = some next → e.sets_address = false →
        next.filter_address = scenario_disabled.filter_address) ∧
      (∀ getaddrinfo prop_id value next,
        step scenario_disabled (.set_property getaddrinfo prop_id value) = some next →
        (Event.set_property getaddrinfo prop_id value).sets_address = true →
        next.filter_address.port = DUMMY_PORT ∧
        next.filter_address.type ≠ GST_NET_TYPE_UNKNOWN ∧
        resolved_host (getaddrinfo (g_value_get_string value)).2 next.filter_address ∧
        next.filtering_enabled = scenario_disabled.filtering_enabled)) :=
  ⟨rfl, (reachable_filter_address_is_zero_or_has_dummy_port scenario_calls).2 scenario_disabled
    rfl⟩

/-- C9: the freshly constructed element has filtering enabled and the all-zero filter address
(family 0, bytes 0, port 0). For every netbuffer with an IPv4 or IPv6 origin (any bytes, any
port) the rebuilt origin address is not equal to it, so the chain function drops the packet and
returns `GST_FLOW_OK`; every plain buffer is forwarded. -/
theorem fresh_element_drops_every_netbuffer :
    (gst_netfilter_init zeroed_instance).filtering_enabled = true ∧
    (gst_netfilter_init zeroed_instance).filter_address.type = GST_NET_TYPE_UNKNOWN ∧
    (∀ i, (gst_netfilter_init zeroed_instance).filter_address.address i = 0) ∧
    (gst_netfilter_init zeroed_instance).filter_address.port = 0 ∧
    (∀ (gst_pad_push : GstBuffer → GstFlowReturn) (debug : Bool) (locals : ChainLocals)
        (data : List Nat) (addr to_ : GstNetAddress),
      addr.type ≠ GST_NET_TYPE_UNKNOWN →
      gst_netaddress_equal (gst_netfilter_init zeroed_instance).filter_address
          (modified_source_address locals addr) = some false ∧
      ∃ r, gst_netfilter_chain (gst_netfilter_init zeroed_instance) gst_pad_push debug locals
            (.netbuffer data addr to_) = some r ∧
        r.pushed = [] ∧ r.unreffed = [.netbuffer data addr to_] ∧ r.ret = GST_FLOW_OK) ∧
    (∀ (gst_pad_push : GstBuffer → GstFlowReturn) (debug : Bool) (locals : ChainLocals)
        (data : List Nat),
      ∃ r, gst_netfilter_chain (gst_netfilter_init zeroed_instance) gst_pad_push debug locals
            (.buffer data) = some r ∧
        r.pushed = [.buffer data] ∧ r.unreffed = [] ∧ r.ret = gst_pad_push (.buffer data)) := by
  refine ⟨rfl, rfl, fun _ => rfl, rfl, ?_, ?_⟩
  · intro gst_pad_push debug locals data addr to_ haddr
    have hno : ¬ (same_host (gst_netfilter_init zeroed_instance).filter_address addr ∧
        (gst_netfilter_init zeroed_instance).filter_address.port = DUMMY_PORT) := by
      rintro ⟨_, hp⟩
      revert hp
      decide
    constructor
    · rw [equal_modified _ addr locals (Or.inl haddr)]
      simp only [hno, decide_False]
    · obtain ⟨r, hr, _, hdrop⟩ :=
        chain_enabled_netbuffer (gst_netfilter_init zeroed_instance).filter_address gst_pad_push
          debug locals data addr to_ (Or.inl haddr)
      have hd := hdrop hno
      exact ⟨r, hr, hd.2.1, hd.2.2, hd.1⟩
  · intro gst_pad_push debug locals data
    exact ⟨_, chain_pass_through _ gst_pad_push debug locals (.buffer data) (Or.inr rfl),
      rfl, rfl, rfl⟩

/-- Witness of C9: a packet from 192.0.2.1:5000 arrives at the freshly constructed element. -/
theorem fresh_element_drops_every_netbuffer_witness :
    (ip4 [192, 0, 2, 1] 5000).type ≠ GST_NET_TYPE_UNKNOWN ∧
    (gst_netaddress_equal (gst_netfilter_init zeroed_instance).filter_address
        (modified_source_address locals0 (ip4 [192, 0, 2, 1] 5000)) = some false ∧
      ∃ r, gst_netfilter_chain (gst_netfilter_init zeroed_instance) push_ok false locals0
            (.netbuffer [7] (ip4 [192, 0, 2, 1] 5000) (ip4 [] 0)) = some r ∧
        r.pushed = [] ∧ r.unreffed = [.netbuffer [7] (ip4 [192, 0, 2, 1] 5000) (ip4 [] 0)] ∧
        r.ret = GST_FLOW_OK) :=
  ⟨by decide,
    fresh_element_drops_every_netbuffer.2.2.2.2.1 push_ok false locals0 [7]
      (ip4 [192, 0, 2, 1] 5000) (ip4 [] 0) (by decide)⟩

/-- C10: the address block of the chain function, on an IPv4 or IPv6 address, keeps the family,
keeps the raw bytes (the 4 bytes read for IPv4, the 16 bytes read for IPv6), always yields port
`DUMMY_PORT`, and is idempotent: applied to its own result it gives that result again, and with
any other content of the automatic variables a result equal to it under
`gst_netaddress_equal`. -/
theorem normalisation_preserves_host_and_is_idempotent (locals locals2 : ChainLocals)
    (a : GstNetAddress) (ha : a.type ≠ GST_NET_TYPE_UNKNOWN) :
    (modified_source_address locals a).type = a.type ∧
    (a.type = GST_NET_TYPE_IP4 →
      (gst_netaddress_get_address_bytes a locals.addr).1 = 4 ∧
      ∀ i : Fin 16, i.val < 4 → (modified_source_address locals a).address i = a.address i) ∧
    (a.type = GST_NET_TYPE_IP6 →
      (gst_netaddress_get_address_bytes a locals.addr).1 = 16 ∧
      (modified_source_address locals a).address = a.address) ∧
    (modified_source_address locals a).port = DUMMY_PORT ∧
    modified_source_address locals (modified_source_address locals a)
      = modified_source_address locals a ∧
    gst_netaddress_equal (modified_source_address locals2 (modified_source_address locals a))
      (modified_source_address locals a) = some true := by
  have hb := modified_bytes locals a
  refine ⟨modified_type locals a, ?_, ?_, modified_port locals a, ?_, ?_⟩
  · intro h4
    rw [h4] at hb
    exact ⟨by simp [gst_netaddress_get_address_bytes, h4], hb⟩
  · intro h6
    rw [h6] at hb
    exact ⟨by simp [gst_netaddress_get_address_bytes, h6], (bytes_agree_sixteen _ _).mp hb⟩
  · obtain ⟨ty, bytes, port⟩ := a
    cases ty
    · simp [modified_source_address, gst_netaddress_set_address_bytes,
        gst_netaddress_get_net_type, gst_netaddress_get_address_bytes]
    · simp only [modified_source_address, gst_netaddress_set_address_bytes,
        gst_netaddress_get_net_type, gst_netaddress_get_address_bytes]
      congr 1
      funext i
      by_cases hi : i.val < 4 <;> simp [hi]
    · simp [modified_source_address, gst_netaddress_set_address_bytes,
        gst_netaddress_get_net_type, gst_netaddress_get_address_bytes]
  · have hm : (modified_source_address locals a).type ≠ GST_NET_TYPE_UNKNOWN := by
      rw [modified_type]; exact ha
    rw [equal_known _ _ (Or.inl hm)]
    have hs : same_host (modified_source_address locals2 (modified_source_address locals a))
        (modified_source_address locals a) :=
      ⟨modified_type _ _, modified_bytes _ _⟩
    have hp : (modified_source_address locals2 (modified_source_address locals a)).port
        = (modified_source_address locals a).port := by
      rw [modified_port, modified_port]
    simp [hs, hp]

/-- Witness of C10: the address 192.0.2.1:5000. -/
theorem normalisation_preserves_host_and_is_idempotent_witness :
    (ip4 [192, 0, 2, 1] 5000).type ≠ GST_NET_TYPE_UNKNOWN ∧
    ((modified_source_address locals0 (ip4 [192, 0, 2, 1] 5000)).type
        = (ip4 [192, 0, 2, 1] 5000).type ∧
    ((ip4 [192, 0, 2, 1] 5000).type = GST_NET_TYPE_IP4 →
      (gst_netaddress_get_address_bytes (ip4 [192, 0, 2, 1] 5000) locals0.addr).1 = 4 ∧
      ∀ i : Fin 16, i.val < 4 →
        (modified_source_address locals0 (ip4 [192, 0, 2, 1] 5000)).address i
          = (ip4 [192, 0, 2, 1] 5000).address i) ∧
    ((ip4 [192, 0, 2, 1] 5000).type = GST_NET_TYPE_IP6 →
      (gst_netaddress_get_address_bytes (ip4 [192, 0, 2, 1] 5000) locals0.addr).1 = 16 ∧
      (modified_source_address locals0 (ip4 [192, 0, 2, 1] 5000)).address
        = (ip4 [192, 0, 2, 1] 5000).address) ∧
    (modified_source_address locals0 (ip4 [192, 0, 2, 1] 5000)).port = DUMMY_PORT ∧
    modified_source_address locals0 (modified_source_address locals0 (ip4 [192, 0, 2, 1] 5000))
      = modified_source_address locals0 (ip4 [192, 0, 2, 1] 5000) ∧
    gst_netaddress_equal
      (modified_source_address locals0 (modified_source_address locals0 (ip4 [192, 0, 2, 1] 5000)))
      (modified_source_address locals0 (ip4 [192, 0, 2, 1] 5000)) = some true) :=
  ⟨by decide,
    normalisation_preserves_host_and_is_idempotent locals0 locals0 (ip4 [192, 0, 2, 1] 5000)
      (by decide)⟩

end Netfilter
